import Mathlib

/-!
Verification of the Matching and Profitability Scoring Engine of the
Vehicle-Analysis repository.

The Python sources embedded here are:
  src/api/japan_auction_api.py        (landed-cost model)
  src/data_processing/profitability_calculator.py
  src/data_processing/scoring_engine.py

Currency and score arithmetic is modelled over the rationals.  The Python
builtin round(x, n) rounds half to even; it is modelled by roundHalfEven
below.  Wall-clock dependent values (datetime.now().year) are passed in as
an explicit currentYear parameter.
-/

/-- Banker's rounding to an integer, as the Python builtin round performs on
the exactly representable values that occur in this development. -/
def roundHalfEven (q : ℚ) : ℤ :=
  if q - ⌊q⌋ < 1/2 then ⌊q⌋
  else if q - ⌊q⌋ > 1/2 then ⌊q⌋ + 1
  else if Even ⌊q⌋ then ⌊q⌋ else ⌊q⌋ + 1

/-- Python round(x, 1). -/
def pyRound1 (q : ℚ) : ℚ := (roundHalfEven (10 * q) : ℚ) / 10

/-- Python round(x, 2). -/
def pyRound2 (q : ℚ) : ℚ := (roundHalfEven (100 * q) : ℚ) / 100

/-! ## Landed Cost Model — src/api/japan_auction_api.py -/

/-- The fields of the vehicle_data dict read by the landed-cost code
(category with default missing handled by the string being arbitrary, and
year, default 0 in the source). -/
structure VehicleData where
  category : String
  year : ℤ
deriving Repr, DecidableEq

/-- JapanAuctionAPI._calculate_freight_cost. -/
def calculate_freight_cost (v : VehicleData) : ℚ :=
  800 +
    (if v.category = "SUV" then 200
     else if v.category = "Truck" then 400
     else if v.category = "Van" then 300
     else 0)

/-- JapanAuctionAPI._calculate_conversion_costs: fixed per-item costs
(speedometer 150, fog lights 100, mirrors 50, headlights 75) plus a 200
surcharge for vehicles with year greater than 2015. -/
def calculate_conversion_costs (v : VehicleData) : ℚ :=
  150 + 100 + 50 + 75 + (if v.year > 2015 then 200 else 0)

/-- JapanAuctionAPI._get_exchange_rate: the fetched GBP-per-JPY rate when the
HTTP call succeeds, and the hard-coded fallback 0.0055 on any failure.  The
argument none models the provider yielding no rate. -/
def get_exchange_rate (fetched : Option ℚ) : ℚ :=
  fetched.getD 0.0055

/-- The source-currency subtotal formed in calculate_landed_cost:
hammer price, 8 percent auction fees, transport to port 25000, export
certificate 5000, radiation certificate 3000 (all JPY). -/
def jpy_total (hammer_price : ℚ) : ℚ :=
  hammer_price + hammer_price * 0.08 + 25000 + 5000 + 3000

/-- The conversion step of calculate_landed_cost, exactly as written in the
source: gbp_from_jpy = jpy_total / exchange_rate. -/
def gbp_from_jpy (hammer_price rate : ℚ) : ℚ :=
  jpy_total hammer_price / rate

/-- The costs dict returned by JapanAuctionAPI.calculate_landed_cost. -/
structure CostBreakdown where
  hammer_price : ℚ
  auction_fees : ℚ
  transport_to_port : ℚ
  export_certificate : ℚ
  radiation_certificate : ℚ
  freight_cost : ℚ
  uk_import_duty : ℚ
  uk_vat : ℚ
  port_handling : ℚ
  transport_from_port : ℚ
  iva_test : ℚ
  registration_fees : ℚ
  conversion_costs : ℚ
  total_landed_cost_gbp : ℚ
  exchange_rate_used : ℚ
deriving Repr, DecidableEq

/-- JapanAuctionAPI.calculate_landed_cost.  The body raises no exception, so
the except branch returning an empty dict is dead; the function is total.
The fetched argument is the outcome of the exchange-rate HTTP call. -/
def calculate_landed_cost (hammer : ℚ) (v : VehicleData) (fetched : Option ℚ) :
    CostBreakdown :=
  let auction_fees := hammer * 0.08
  let freight := calculate_freight_cost v
  let conv := calculate_conversion_costs v
  let rate := get_exchange_rate fetched
  let gbp := gbp_from_jpy hammer rate
  let cif_value := gbp + freight
  let vat := cif_value * 0.20
  let total := gbp + freight + vat + 150 + 200 + 250 + 55 + conv
  { hammer_price := hammer
    auction_fees := auction_fees
    transport_to_port := 25000
    export_certificate := 5000
    radiation_certificate := 3000
    freight_cost := freight
    uk_import_duty := 0
    uk_vat := vat
    port_handling := 150
    transport_from_port := 200
    iva_test := 250
    registration_fees := 55
    conversion_costs := conv
    total_landed_cost_gbp := total
    exchange_rate_used := rate }

/-! ## Profitability Calculator — src/data_processing/profitability_calculator.py -/

/-- One matched aggregate row as produced by the SQL join in
ProfitabilityCalculator._match_uk_japan_data, restricted to the columns the
calculator reads. -/
structure MatchData where
  make : String
  model : String
  year : ℤ
  fuel_type : String
  avg_uk_price : ℚ
  min_uk_price : ℚ
  max_uk_price : ℚ
  uk_listing_count : ℕ
  avg_days_listed : ℚ
  avg_landed_cost : ℚ
  min_landed_cost : ℚ
  japan_auction_count : ℕ
  avg_condition_grade : ℚ
deriving Repr, DecidableEq

/-- ProfitabilityCalculator._calculate_risk_score.  currentYear models
datetime.now().year. -/
def calculate_risk_score (currentYear : ℤ) (m : MatchData) : ℚ :=
  let uk_price_range := m.max_uk_price - m.min_uk_price
  let price_volatility : ℚ :=
    if m.avg_uk_price > 0 then uk_price_range / m.avg_uk_price * 100 else 50
  let f1 := min price_volatility 50
  let f2 : ℚ :=
    if m.uk_listing_count < 5 then 40
    else if m.uk_listing_count < 10 then 25
    else if m.uk_listing_count < 20 then 15
    else 5
  let vehicle_age := currentYear - m.year
  let f3 : ℚ :=
    if vehicle_age > 15 then 30
    else if vehicle_age > 10 then 20
    else if vehicle_age > 5 then 10
    else 5
  let f4 : ℚ :=
    if m.avg_condition_grade < 3 then 25
    else if m.avg_condition_grade < 3.5 then 15
    else if m.avg_condition_grade < 4 then 10
    else 5
  pyRound1 ((f1 + f2 + f3 + f4) / 4)

/-- Python str.lower, written over the character list so that it evaluates;
the lemma lowerString_eq_toLower below identifies it with String.toLower. -/
def lowerString (s : String) : String := ⟨s.data.map Char.toLower⟩

/-- ProfitabilityCalculator._calculate_demand_score. -/
def calculate_demand_score (m : MatchData) : ℚ :=
  let f1 : ℚ :=
    if m.uk_listing_count > 50 then 90
    else if m.uk_listing_count > 30 then 80
    else if m.uk_listing_count > 20 then 70
    else if m.uk_listing_count > 10 then 60
    else 40
  let f2 : ℚ :=
    if m.avg_days_listed < 14 then 90
    else if m.avg_days_listed < 30 then 75
    else if m.avg_days_listed < 60 then 60
    else if m.avg_days_listed < 90 then 45
    else 30
  let fuel := lowerString m.fuel_type
  let f3 : ℚ :=
    if fuel = "hybrid" ∨ fuel = "electric" then 85
    else if fuel = "petrol" then 70
    else if fuel = "diesel" then 60
    else 50
  pyRound1 ((f1 + f2 + f3) / 3)

/-- ProfitabilityCalculator._calculate_overall_score.  The try body raises no
exception, so the except branch returning 0.0 is dead. -/
def calculate_overall_score (profit_margin roi risk_score demand_score
    days_listed : ℚ) : ℚ :=
  let profit_score := min (profit_margin * 2) 100
  let roi_score := min roi 100
  let risk_score_inverted := 100 - risk_score
  let speed_score := max 0 (100 - days_listed * 2)
  pyRound1 (profit_score * 0.25 + roi_score * 0.25 +
    risk_score_inverted * 0.20 + demand_score * 0.20 + speed_score * 0.10)

/-- The per-vehicle dict built by
ProfitabilityCalculator._calculate_individual_profit (the last_calculated
timestamp is not modelled; no claim mentions it). -/
structure ProfitResult where
  make : String
  model : String
  year : ℤ
  fuel_type : String
  avg_uk_selling_price : ℚ
  avg_landed_cost : ℚ
  min_landed_cost : ℚ
  gross_profit : ℚ
  profit_margin_percent : ℚ
  roi_percent : ℚ
  best_case_profit : ℚ
  best_case_roi_percent : ℚ
  annualized_roi_percent : ℚ
  avg_days_to_sell : ℚ
  uk_listing_count : ℕ
  japan_auction_count : ℕ
  avg_condition_grade : ℚ
  risk_score : ℚ
  demand_score : ℚ
  overall_score : ℚ
deriving Repr, DecidableEq

/-- ProfitabilityCalculator._calculate_individual_profit: returns none for a
degenerate aggregate (non-positive mean price or mean landed cost), otherwise
the full profit dict. -/
def calculate_individual_profit (currentYear : ℤ) (m : MatchData) :
    Option ProfitResult :=
  if m.avg_uk_price ≤ 0 ∨ m.avg_landed_cost ≤ 0 then none
  else
    let gross_profit := m.avg_uk_price - m.avg_landed_cost
    let profit_margin_percent := gross_profit / m.avg_uk_price * 100
    let roi_percent := gross_profit / m.avg_landed_cost * 100
    let best_case_profit := m.avg_uk_price - m.min_landed_cost
    let best_case_roi : ℚ :=
      if m.min_landed_cost > 0 then best_case_profit / m.min_landed_cost * 100
      else 0
    let days_to_sell := max m.avg_days_listed 1
    let annualized_roi := roi_percent * 365 / days_to_sell
    let risk_score := calculate_risk_score currentYear m
    let demand_score := calculate_demand_score m
    some
      { make := m.make
        model := m.model
        year := m.year
        fuel_type := m.fuel_type
        avg_uk_selling_price := pyRound2 m.avg_uk_price
        avg_landed_cost := pyRound2 m.avg_landed_cost
        min_landed_cost := pyRound2 m.min_landed_cost
        gross_profit := pyRound2 gross_profit
        profit_margin_percent := pyRound2 profit_margin_percent
        roi_percent := pyRound2 roi_percent
        best_case_profit := pyRound2 best_case_profit
        best_case_roi_percent := pyRound2 best_case_roi
        annualized_roi_percent := pyRound2 annualized_roi
        avg_days_to_sell := pyRound1 m.avg_days_listed
        uk_listing_count := m.uk_listing_count
        japan_auction_count := m.japan_auction_count
        avg_condition_grade := pyRound1 m.avg_condition_grade
        risk_score := risk_score
        demand_score := demand_score
        overall_score := calculate_overall_score profit_margin_percent
          roi_percent risk_score demand_score m.avg_days_listed }

/-- The descending stable sort by profit_margin_percent performed at the end
of calculate_profitability_matrix. -/
def sortByMarginDesc (l : List ProfitResult) : List ProfitResult :=
  l.mergeSort (fun x y => y.profit_margin_percent ≤ x.profit_margin_percent)

/-- ProfitabilityCalculator.calculate_profitability_matrix, from the list of
matched rows onward: each match is scored individually, Python appends the
dict only when it is truthy (None is skipped), then sorts by profit margin
descending. -/
def calculate_profitability_matrix (currentYear : ℤ) (matched : List MatchData) :
    List ProfitResult :=
  sortByMarginDesc (matched.filterMap (calculate_individual_profit currentYear))

/-! ## Scoring Engine — src/data_processing/scoring_engine.py -/

/-- The enhanced per-vehicle result dict the ScoringEngine operates on.
Every field is optional, mirroring dict.get access with per-call-site
defaults; the nested market-intelligence dicts are flattened to the single
key each consumer reads (absent outer dict and absent inner key are
observationally identical through dict.get chains). -/
structure EnhancedResult where
  year : Option ℤ := none
  profit_margin_percent : Option ℚ := none
  roi_percent : Option ℚ := none
  avg_days_to_sell : Option ℚ := none
  uk_listing_count : Option ℕ := none
  japan_auction_count : Option ℕ := none
  risk_score : Option ℚ := none
  demand_score : Option ℚ := none
  overall_score : Option ℚ := none
  ml_score : Option ℚ := none
  final_recommendation_score : Option ℚ := none
  ulez_compliant : Option Bool := none
  trend : Option String := none
  trend_confidence : Option String := none
  total_registrations : Option ℚ := none
  competition_level : Option String := none
  volatility : Option String := none
  supply_risk : Option String := none
deriving Repr, DecidableEq

/-- ScoringEngine._encode_trend. -/
def encode_trend (t : String) : ℚ :=
  if t = "growing" then 1
  else if t = "stable" then 0.5
  else if t = "declining" then 0
  else if t = "unknown" then 0.5
  else if t = "insufficient_data" then 0.3
  else 0.5

/-- ScoringEngine._encode_competition. -/
def encode_competition (c : String) : ℚ :=
  if c = "low" then 1
  else if c = "medium" then 0.5
  else if c = "high" then 0
  else if c = "unknown" then 0.5
  else 0.5

/-- ScoringEngine._encode_volatility. -/
def encode_volatility (v : String) : ℚ :=
  if v = "low" then 1
  else if v = "medium" then 0.5
  else if v = "high" then 0
  else if v = "unknown" then 0.5
  else 0.5

/-- ScoringEngine._encode_supply_risk. -/
def encode_supply_risk (s : String) : ℚ :=
  if s = "low" then 1
  else if s = "medium" then 0.5
  else if s = "high" then 0
  else 0.5

/-- ScoringEngine._extract_features_for_ml: the 14-entry feature vector.  The
try body raises no exception, so the except branch returning the empty list
is dead.  currentYear models datetime.now().year. -/
def extract_features_for_ml (currentYear : ℤ) (r : EnhancedResult) : List ℚ :=
  [r.profit_margin_percent.getD 0,
   r.roi_percent.getD 0,
   r.avg_days_to_sell.getD 30,
   (r.uk_listing_count.getD 0 : ℚ),
   (r.japan_auction_count.getD 0 : ℚ),
   r.risk_score.getD 50,
   r.demand_score.getD 50,
   if r.ulez_compliant.getD false then 1 else 0,
   r.total_registrations.getD 0 / 100,
   encode_trend (r.trend.getD "unknown"),
   encode_competition (r.competition_level.getD "medium"),
   ((currentYear - r.year.getD currentYear : ℤ) : ℚ),
   encode_volatility (r.volatility.getD "medium"),
   encode_supply_risk (r.supply_risk.getD "medium")]

/-- The feature weights of ScoringEngine._calculate_ml_score. -/
def mlWeights : List ℚ :=
  [0.20, 0.20, 0.10, 0.05, 0.05, 0.10, 0.10, 0.05, 0.03, 0.05, 0.03, 0.02,
   0.01, 0.01]

/-- ScoringEngine._calculate_ml_score, the rule-based blend.  np.log1p is the
one foreign numerical primitive; it is abstracted as the log1p parameter, so
theorems can quantify over it. -/
def calculate_ml_score (log1p : ℚ → ℚ) (features : List ℚ) : ℚ :=
  if features.length < 14 then 50
  else
    match features with
    | f0 :: f1 :: f2 :: f3 :: f4 :: f5 :: f6 :: f7 :: f8 :: f9 :: f10 ::
        f11 :: f12 :: f13 :: _ =>
      let normalized : List ℚ :=
        [min 100 (f0 * 2), min 100 f1, max 0 (100 - f2 * 2),
         min 100 (log1p f3 * 20), min 100 (log1p f4 * 25), 100 - f5, f6,
         f7 * 100, f8 * 100, f9 * 100, f10 * 100,
         max 0 (100 - f11 * 100 * 5), f12 * 100, f13 * 100]
      let score := ((normalized.zip mlWeights).map (fun p => p.1 * p.2)).sum
      max 0 (min 100 score)
    | _ => 50

/-- self.ml_model after ScoringEngine.__init__: _initialize_ml_model always
succeeds in constructing the RandomForestRegressor, so the model attribute is
set (non-None). -/
def ml_model_initialized : Bool := true

/-- The outcome of calling predict on the RandomForestRegressor.  No call to
fit on self.ml_model exists anywhere in the repository (only the scaler is
fitted), and scikit-learn predict on a never-fitted estimator raises
NotFittedError, so the call always raises. -/
def rf_predict_unfitted : Except String ℚ := Except.error "NotFittedError"

/-- ScoringEngine._calculate_ml_score_for_result: tries the scikit-learn
predict path when the model attribute is set and features are non-empty; the
raised NotFittedError lands in the except handler, which returns
result.get with key overall_score and default 50.0. -/
def calculate_ml_score_for_result (log1p : ℚ → ℚ) (currentYear : ℤ)
    (r : EnhancedResult) : ℚ :=
  let features := extract_features_for_ml currentYear r
  if ml_model_initialized ∧ features.length > 0 then
    match rf_predict_unfitted with
    | Except.ok v => max 0 (min 100 v)
    | Except.error _ => r.overall_score.getD 50
  else
    calculate_ml_score log1p features

/-- ScoringEngine._calculate_final_score: weighted base of overall and ml
scores, separate bonus and penalty accumulators, clamp to the unit-hundred
interval. -/
def calculate_final_score (r : EnhancedResult) : ℚ :=
  let overall_score := r.overall_score.getD 50
  let ml_score := r.ml_score.getD 50
  let base_score := overall_score * 0.6 + ml_score * 0.4
  let trend := r.trend.getD "unknown"
  let competition := r.competition_level.getD "medium"
  let volatility := r.volatility.getD "medium"
  let supply_risk := r.supply_risk.getD "medium"
  let bonus_factors : ℚ :=
    (if r.ulez_compliant.getD false then 5 else 0) +
    (if trend = "growing" then 3 else 0) +
    (if competition = "low" then 4 else 0) +
    (if volatility = "low" then 2 else 0) +
    (if supply_risk = "low" then 3 else 0)
  let penalty_factors : ℚ :=
    (if r.ulez_compliant.getD false then 0 else 3) +
    (if trend = "declining" then 5 else 0) +
    (if competition = "high" then 3 else 0) +
    (if volatility = "high" then 4 else 0) +
    (if supply_risk = "high" then 5 else 0)
  max 0 (min 100 (base_score + bonus_factors - penalty_factors))

/-- The dict returned by ScoringEngine._calculate_confidence_interval. -/
structure ConfidenceMetrics where
  confidence_level : String
  confidence_score : ℚ
  margin_of_error : ℚ
  lower_bound : ℚ
  upper_bound : ℚ
deriving Repr, DecidableEq

/-- ScoringEngine._calculate_confidence_interval. -/
def calculate_confidence_interval (r : EnhancedResult) : ConfidenceMetrics :=
  let uk_count := r.uk_listing_count.getD 0
  let japan_count := r.japan_auction_count.getD 0
  let f1 : ℚ :=
    if uk_count ≥ 10 ∧ japan_count ≥ 5 then 0.9
    else if uk_count ≥ 5 ∧ japan_count ≥ 3 then 0.7
    else 0.4
  let reg_confidence := r.trend_confidence.getD "low"
  let f2 : ℚ :=
    if reg_confidence = "high" then 0.8
    else if reg_confidence = "medium" then 0.6
    else 0.3
  let volatility := r.volatility.getD "unknown"
  let f3 : ℚ :=
    if volatility = "low" then 0.8
    else if volatility = "medium" then 0.6
    else 0.3
  let avg_confidence := (f1 + f2 + f3) / 3
  let level_margin : String × ℚ :=
    if avg_confidence ≥ 0.75 then ("High", 5)
    else if avg_confidence ≥ 0.55 then ("Medium", 10)
    else ("Low", 15)
  let final_score := r.final_recommendation_score.getD 50
  { confidence_level := level_margin.1
    confidence_score := pyRound1 (avg_confidence * 100)
    margin_of_error := level_margin.2
    lower_bound := max 0 (final_score - level_margin.2)
    upper_bound := min 100 (final_score + level_margin.2) }

/-- ScoringEngine._generate_risk_warnings, as the ordered concatenation of
its six independent conditional appends. -/
def generate_risk_warnings (r : EnhancedResult) : List String :=
  (if r.volatility.getD "" = "high" then
    ["High price volatility detected - monitor market closely"] else []) ++
  (if r.supply_risk.getD "" = "high" then
    ["Limited auction supply - secure inventory quickly when available"]
   else []) ++
  (if r.competition_level.getD "" = "high" then
    ["High competition - ensure competitive pricing strategy"] else []) ++
  (if r.trend.getD "" = "declining" then
    ["Declining registration trend - monitor demand carefully"] else []) ++
  (if r.risk_score.getD 50 > 70 then
    ["High overall risk score - consider additional due diligence"] else []) ++
  (if r.avg_days_to_sell.getD 30 > 60 then
    ["Slow-selling vehicle - ensure adequate cash flow planning"] else [])

/-! ## Concrete fixtures used by witnesses and counterexamples -/

/-- A matched row with positive prices whose landed cost far exceeds the UK
price: gross profit is hugely negative. -/
def negProfitMatch : MatchData :=
  { make := "Toyota", model := "Prius", year := 2024, fuel_type := "petrol"
    avg_uk_price := 100, min_uk_price := 100, max_uk_price := 100
    uk_listing_count := 3, avg_days_listed := 30
    avg_landed_cost := 10000, min_landed_cost := 10000
    japan_auction_count := 3, avg_condition_grade := 4 }

/-- A well-formed profitable matched row. -/
def okMatch : MatchData :=
  { make := "Honda", model := "Jazz", year := 2020, fuel_type := "petrol"
    avg_uk_price := 25000, min_uk_price := 23000, max_uk_price := 27000
    uk_listing_count := 15, avg_days_listed := 30
    avg_landed_cost := 20000, min_landed_cost := 19000
    japan_auction_count := 8, avg_condition_grade := 4 }

/-- A degenerate matched row (zero mean price). -/
def degMatch : MatchData :=
  { make := "Mazda", model := "Demio", year := 2018, fuel_type := "petrol"
    avg_uk_price := 0, min_uk_price := 0, max_uk_price := 0
    uk_listing_count := 4, avg_days_listed := 20
    avg_landed_cost := 9000, min_landed_cost := 8500
    japan_auction_count := 5, avg_condition_grade := 3.5 }

/-- The confidence fixture of section 8 of the spec: both sample counts 20,
high trend confidence, low volatility. -/
def confFixture : EnhancedResult :=
  { uk_listing_count := some 20, japan_auction_count := some 20
    trend_confidence := some "high", volatility := some "low"
    final_recommendation_score := some 50 }

/-- An enhanced result whose recorded risk score is the one the calculator
computes for okMatch. -/
def warnFixture : EnhancedResult :=
  { risk_score := some (calculate_risk_score 2024 okMatch) }

/-! ## Helper lemmas -/

theorem lowerString_eq_toLower (s : String) : lowerString s = s.toLower := by
  rw [String.toLower, String.map_eq]
  rfl

theorem floor_le_roundHalfEven (q : ℚ) : ⌊q⌋ ≤ roundHalfEven q := by
  unfold roundHalfEven
  split_ifs <;> omega

theorem roundHalfEven_le_floor_add_one (q : ℚ) : roundHalfEven q ≤ ⌊q⌋ + 1 := by
  unfold roundHalfEven
  split_ifs <;> omega

theorem roundHalfEven_mono {a b : ℚ} (h : a ≤ b) :
    roundHalfEven a ≤ roundHalfEven b := by
  rcases lt_or_le ⌊a⌋ ⌊b⌋ with hf | hf
  · calc roundHalfEven a ≤ ⌊a⌋ + 1 := roundHalfEven_le_floor_add_one a
      _ ≤ ⌊b⌋ := by omega
      _ ≤ roundHalfEven b := floor_le_roundHalfEven b
  · have hfeq : ⌊a⌋ = ⌊b⌋ := le_antisymm (Int.floor_le_floor h) hf
    unfold roundHalfEven
    rw [hfeq]
    split_ifs <;> first | omega | linarith

theorem pyRound1_mono {a b : ℚ} (h : a ≤ b) : pyRound1 a ≤ pyRound1 b := by
  unfold pyRound1
  have h10 : (10 : ℚ) * a ≤ 10 * b := by linarith
  have hz := roundHalfEven_mono h10
  have hc : ((roundHalfEven (10 * a) : ℤ) : ℚ) ≤ ((roundHalfEven (10 * b) : ℤ) : ℚ) := by
    exact_mod_cast hz
  linarith

/-! ## Claim theorems -/

/-- C1 (code_bug record): the spec says the JPY subtotal is converted to GBP
by multiplying by the GBP-per-JPY exchange rate; the code divides by it.  At
the section-8 fixture (hammer price 2,500,000 JPY, rate 0.0055) the JPY
subtotal is 2,733,000; the code produces 5,466,000,000/11 (about 497 million
pounds) where multiplication gives 15,031.50; the full landed-cost total
returned by the code is 6,559,226,730/11. -/
theorem landed_cost_divides_rather_than_multiplies :
    jpy_total 2500000 = 2733000 ∧
    gbp_from_jpy 2500000 0.0055 = 5466000000 / 11 ∧
    jpy_total 2500000 * 0.0055 = 15031.5 ∧
    (5466000000 / 11 : ℚ) ≠ jpy_total 2500000 * 0.0055 ∧
    (calculate_landed_cost 2500000 ⟨"SUV", 2021⟩ (some 0.0055)).total_landed_cost_gbp =
      6559226730 / 11 := by
  refine ⟨by norm_num [jpy_total], by norm_num [gbp_from_jpy, jpy_total], ?_, ?_, ?_⟩
  · norm_num [jpy_total]
  · norm_num [jpy_total]
  · norm_num [calculate_landed_cost, gbp_from_jpy, jpy_total,
      calculate_freight_cost, calculate_conversion_costs, get_exchange_rate]

/-- C2 counterexample: when the rate provider yields no rate (fetched =
none), the landed-cost computation does not fail; it silently uses the
hard-coded fallback 0.0055 and returns a complete cost breakdown, refuting
the claim that the result is a MissingExchangeRate error (no such error
exists in the code). -/
theorem missing_rate_returns_breakdown_cx :
    get_exchange_rate none = 0.0055 ∧
    (calculate_landed_cost 2500000 ⟨"SUV", 2020⟩ none).exchange_rate_used = 0.0055 ∧
    (calculate_landed_cost 2500000 ⟨"SUV", 2020⟩ none).total_landed_cost_gbp =
      6559226730 / 11 := by
  refine ⟨rfl, rfl, ?_⟩
  norm_num [calculate_landed_cost, gbp_from_jpy, jpy_total,
    calculate_freight_cost, calculate_conversion_costs, get_exchange_rate]

/-- C2 amended: when the rate provider yields no rate, the landed-cost
computation silently substitutes the hard-coded fallback rate 0.0055 and
returns the same breakdown as if that rate had been fetched; it never fails
with a MissingExchangeRate error. -/
theorem missing_rate_uses_fallback (hammer : ℚ) (v : VehicleData) :
    (calculate_landed_cost hammer v none).exchange_rate_used = 0.0055 ∧
    calculate_landed_cost hammer v none =
      calculate_landed_cost hammer v (some 0.0055) :=
  ⟨rfl, rfl⟩

/-- C6: the regulatory-compliance conversion cost is the sum of the fixed
per-item costs (375 in total) plus a 200 surcharge exactly when the vehicle
was registered within the last nine years (year above 2015, i.e. age below 9
counted from 2024), and the age-3 fixture vehicle costs 575. -/
theorem conversion_costs_age_rule :
    (∀ v : VehicleData, calculate_conversion_costs v =
      150 + 100 + 50 + 75 + (if 2024 - v.year < 9 then 200 else 0)) ∧
    (∀ cat : String, calculate_conversion_costs ⟨cat, 2024 - 3⟩ = 575) := by
  constructor
  · intro v
    unfold calculate_conversion_costs
    by_cases h : v.year > 2015
    · rw [if_pos h, if_pos (by omega)]
    · rw [if_neg h, if_neg (by omega)]
  · intro cat
    norm_num [calculate_conversion_costs]

/-- C5: the ScoringEngine ml score of every result equals the result's
previously computed overall score (default 50 when absent): the regressor is
constructed but never fitted, predict always raises, the handler returns the
overall score, and the rule-based blend (hence the log1p primitive) is never
consulted — the result is independent of log1p. -/
theorem ml_score_equals_overall_score (log1p : ℚ → ℚ) (currentYear : ℤ)
    (r : EnhancedResult) :
    calculate_ml_score_for_result log1p currentYear r =
      r.overall_score.getD 50 := by
  unfold calculate_ml_score_for_result
  simp [ml_model_initialized, extract_features_for_ml, rf_predict_unfitted]

/-- C4: the final recommendation score is the 0.6 and 0.4 weighted blend of
overall and ml scores, adjusted by exactly the discrete bonuses and
penalties (plus 5 else minus 3 for compliance, plus 3 or minus 5 for trend,
plus 4 or minus 3 for competition, plus 2 or minus 4 for volatility, plus 3
or minus 5 for supply risk), clamped to the interval from 0 to 100. -/
theorem final_score_formula (r : EnhancedResult) :
    calculate_final_score r =
      max 0 (min 100 (r.overall_score.getD 50 * 0.6 + r.ml_score.getD 50 * 0.4 +
        (if r.ulez_compliant.getD false then 5 else -3) +
        (if r.trend.getD "unknown" = "growing" then 3
         else if r.trend.getD "unknown" = "declining" then -5 else 0) +
        (if r.competition_level.getD "medium" = "low" then 4
         else if r.competition_level.getD "medium" = "high" then -3 else 0) +
        (if r.volatility.getD "medium" = "low" then 2
         else if r.volatility.getD "medium" = "high" then -4 else 0) +
        (if r.supply_risk.getD "medium" = "low" then 3
         else if r.supply_risk.getD "medium" = "high" then -5 else 0))) := by
  unfold calculate_final_score
  refine congrArg (fun z => max 0 (min 100 z)) ?_
  have e1 : (if r.ulez_compliant.getD false then (5:ℚ) else 0) -
      (if r.ulez_compliant.getD false then (0:ℚ) else 3) =
      (if r.ulez_compliant.getD false then (5:ℚ) else -3) := by
    cases r.ulez_compliant.getD false <;> norm_num
  have e2 : (if r.trend.getD "unknown" = "growing" then (3:ℚ) else 0) -
      (if r.trend.getD "unknown" = "declining" then (5:ℚ) else 0) =
      (if r.trend.getD "unknown" = "growing" then (3:ℚ)
       else if r.trend.getD "unknown" = "declining" then -5 else 0) := by
    by_cases h1 : r.trend.getD "unknown" = "growing"
    · by_cases h2 : r.trend.getD "unknown" = "declining"
      · rw [h1] at h2
        exact absurd h2 (by decide)
      · simp [h1, h2]
    · simp only [if_neg h1]
      split_ifs <;> norm_num
  have e3 : (if r.competition_level.getD "medium" = "low" then (4:ℚ) else 0) -
      (if r.competition_level.getD "medium" = "high" then (3:ℚ) else 0) =
      (if r.competition_level.getD "medium" = "low" then (4:ℚ)
       else if r.competition_level.getD "medium" = "high" then -3 else 0) := by
    by_cases h1 : r.competition_level.getD "medium" = "low"
    · by_cases h2 : r.competition_level.getD "medium" = "high"
      · rw [h1] at h2
        exact absurd h2 (by decide)
      · simp [h1, h2]
    · simp only [if_neg h1]
      split_ifs <;> norm_num
  have e4 : (if r.volatility.getD "medium" = "low" then (2:ℚ) else 0) -
      (if r.volatility.getD "medium" = "high" then (4:ℚ) else 0) =
      (if r.volatility.getD "medium" = "low" then (2:ℚ)
       else if r.volatility.getD "medium" = "high" then -4 else 0) := by
    by_cases h1 : r.volatility.getD "medium" = "low"
    · by_cases h2 : r.volatility.getD "medium" = "high"
      · rw [h1] at h2
        exact absurd h2 (by decide)
      · simp [h1, h2]
    · simp only [if_neg h1]
      split_ifs <;> norm_num
  have e5 : (if r.supply_risk.getD "medium" = "low" then (3:ℚ) else 0) -
      (if r.supply_risk.getD "medium" = "high" then (5:ℚ) else 0) =
      (if r.supply_risk.getD "medium" = "low" then (3:ℚ)
       else if r.supply_risk.getD "medium" = "high" then -5 else 0) := by
    by_cases h1 : r.supply_risk.getD "medium" = "low"
    · by_cases h2 : r.supply_risk.getD "medium" = "high"
      · rw [h1] at h2
        exact absurd h2 (by decide)
      · simp [h1, h2]
    · simp only [if_neg h1]
      split_ifs <;> norm_num
  linarith [e1, e2, e3, e4, e5]

theorem pyRound1_quarter_bounds {a b c d : ℚ} (ha0 : 0 ≤ a) (ha : a ≤ 50)
    (hb0 : 5 ≤ b) (hb : b ≤ 40) (hc0 : 5 ≤ c) (hc : c ≤ 30)
    (hd0 : 5 ≤ d) (hd : d ≤ 25) :
    38/10 ≤ pyRound1 ((a + b + c + d) / 4) ∧
      pyRound1 ((a + b + c + d) / 4) ≤ 362/10 := by
  have hl : (15/4 : ℚ) ≤ (a + b + c + d) / 4 := by linarith
  have hu : (a + b + c + d) / 4 ≤ 145/4 := by linarith
  have e1 : pyRound1 (15/4 : ℚ) = 38/10 := by
    norm_num [pyRound1, roundHalfEven, Int.even_iff]
  have e2 : pyRound1 (145/4 : ℚ) = 362/10 := by
    norm_num [pyRound1, roundHalfEven, Int.even_iff]
  constructor
  · calc (38/10 : ℚ) = pyRound1 (15/4) := e1.symm
      _ ≤ pyRound1 ((a + b + c + d) / 4) := pyRound1_mono hl
  · calc pyRound1 ((a + b + c + d) / 4) ≤ pyRound1 (145/4) := pyRound1_mono hu
      _ = 362/10 := e2

theorem pyRound1_third_bounds {a b c : ℚ} (ha0 : 40 ≤ a) (ha : a ≤ 90)
    (hb0 : 30 ≤ b) (hb : b ≤ 90) (hc0 : 50 ≤ c) (hc : c ≤ 85) :
    40 ≤ pyRound1 ((a + b + c) / 3) ∧ pyRound1 ((a + b + c) / 3) ≤ 883/10 := by
  have hl : (40 : ℚ) ≤ (a + b + c) / 3 := by linarith
  have hu : (a + b + c) / 3 ≤ 265/3 := by linarith
  have e1 : pyRound1 (40 : ℚ) = 40 := by
    norm_num [pyRound1, roundHalfEven, Int.even_iff]
  have e2 : pyRound1 (265/3 : ℚ) = 883/10 := by
    norm_num [pyRound1, roundHalfEven, Int.even_iff]
  constructor
  · calc (40 : ℚ) = pyRound1 40 := e1.symm
      _ ≤ pyRound1 ((a + b + c) / 3) := pyRound1_mono hl
  · calc pyRound1 ((a + b + c) / 3) ≤ pyRound1 (265/3) := pyRound1_mono hu
      _ = 883/10 := e2

/-- The risk score of any matched row with a well-ordered price range lies
between 3.8 and 36.2 inclusive. -/
theorem calculate_risk_score_bounds (y : ℤ) (m : MatchData)
    (h : m.min_uk_price ≤ m.max_uk_price) :
    38/10 ≤ calculate_risk_score y m ∧ calculate_risk_score y m ≤ 362/10 := by
  simp only [calculate_risk_score]
  apply pyRound1_quarter_bounds
  · refine le_min ?_ (by norm_num)
    split_ifs with hp
    · have hr : (0:ℚ) ≤ m.max_uk_price - m.min_uk_price := by linarith
      exact mul_nonneg (div_nonneg hr (le_of_lt hp)) (by norm_num)
    · norm_num
  · exact min_le_right _ _
  · split_ifs <;> norm_num
  · split_ifs <;> norm_num
  · split_ifs <;> norm_num
  · split_ifs <;> norm_num
  · split_ifs <;> norm_num
  · split_ifs <;> norm_num

/-- The demand score of any matched row lies between 40 and 88.3 inclusive. -/
theorem calculate_demand_score_bounds (m : MatchData) :
    40 ≤ calculate_demand_score m ∧ calculate_demand_score m ≤ 883/10 := by
  simp only [calculate_demand_score]
  apply pyRound1_third_bounds
  · split_ifs <;> norm_num
  · split_ifs <;> norm_num
  · split_ifs <;> norm_num
  · split_ifs <;> norm_num
  · split_ifs <;> norm_num
  · split_ifs <;> norm_num

/-- C8: the overall investment score is monotone non-decreasing in profit
margin and roi when risk score, demand score and days listed are held
fixed. -/
theorem overall_score_monotone (pm pm2 roi roi2 rs ds dl : ℚ)
    (h1 : pm ≤ pm2) (h2 : roi ≤ roi2) :
    calculate_overall_score pm roi rs ds dl ≤
      calculate_overall_score pm2 roi2 rs ds dl := by
  simp only [calculate_overall_score]
  apply pyRound1_mono
  have hp : min (pm * 2) 100 ≤ min (pm2 * 2) 100 := min_le_min (by linarith) le_rfl
  have hr : min roi 100 ≤ min roi2 100 := min_le_min h2 le_rfl
  linarith

/-- C8 witness: the monotonicity theorem applied at a concrete pair of
inputs. -/
theorem overall_score_monotone_witness :
    calculate_overall_score 10 10 (25/2) 50 30 ≤
      calculate_overall_score 20 20 (25/2) 50 30 :=
  overall_score_monotone 10 20 10 20 (25/2) 50 30 (by norm_num) (by norm_num)

/-- C9: with both sample counts 20, high trend confidence and low
volatility, the confidence computation reports level High with margin of
error 5, and bounds equal to the final score shifted by the margin and
clamped to the interval from 0 to 100. -/
theorem confidence_high_fixture (r : EnhancedResult)
    (h1 : r.uk_listing_count = some 20) (h2 : r.japan_auction_count = some 20)
    (h3 : r.trend_confidence = some "high") (h4 : r.volatility = some "low")
    (h5 : 0 ≤ r.final_recommendation_score.getD 50)
    (h6 : r.final_recommendation_score.getD 50 ≤ 100) :
    (calculate_confidence_interval r).confidence_level = "High" ∧
    (calculate_confidence_interval r).margin_of_error = 5 ∧
    (calculate_confidence_interval r).lower_bound =
      min 100 (max 0 (r.final_recommendation_score.getD 50 - 5)) ∧
    (calculate_confidence_interval r).upper_bound =
      min 100 (max 0 (r.final_recommendation_score.getD 50 + 5)) := by
  have hb1 : max 0 (r.final_recommendation_score.getD 50 - 5) ≤ 100 :=
    max_le (by norm_num) (by linarith)
  have hb2 : (0:ℚ) ≤ r.final_recommendation_score.getD 50 + 5 := by linarith
  simp only [calculate_confidence_interval, h1, h2, h3, h4, Option.getD_some]
  norm_num
  exact ⟨by linarith, by rw [max_eq_right hb2]⟩

/-- C9 witness: the confidence theorem applied to the concrete fixture. -/
theorem confidence_high_fixture_witness :
    (calculate_confidence_interval confFixture).confidence_level = "High" ∧
    (calculate_confidence_interval confFixture).margin_of_error = 5 ∧
    (calculate_confidence_interval confFixture).lower_bound =
      min 100 (max 0 (confFixture.final_recommendation_score.getD 50 - 5)) ∧
    (calculate_confidence_interval confFixture).upper_bound =
      min 100 (max 0 (confFixture.final_recommendation_score.getD 50 + 5)) :=
  confidence_high_fixture confFixture rfl rfl rfl rfl
    (by norm_num [confFixture]) (by norm_num [confFixture])

theorem mem_ite_singleton {c : Prop} [Decidable c] {x a : String} :
    x ∈ (if c then [a] else ([] : List String)) ↔ c ∧ x = a := by
  split_ifs with h <;> simp [h]

/-- The overall score never exceeds 100 when the risk score is non-negative,
the demand score is at most 100 and days listed is non-negative. -/
theorem calculate_overall_score_le_100 (pm roi rs ds dl : ℚ)
    (hrs : 0 ≤ rs) (hds : ds ≤ 100) (hdl : 0 ≤ dl) :
    calculate_overall_score pm roi rs ds dl ≤ 100 := by
  simp only [calculate_overall_score]
  have h1 : min (pm * 2) 100 ≤ 100 := min_le_right _ _
  have h2 : min roi 100 ≤ 100 := min_le_right _ _
  have h3 : max 0 (100 - dl * 2) ≤ 100 := max_le (by norm_num) (by linarith)
  have harg : min (pm * 2) 100 * 0.25 + min roi 100 * 0.25 +
      (100 - rs) * 0.20 + ds * 0.20 + max 0 (100 - dl * 2) * 0.10 ≤ 100 := by
    linarith
  calc pyRound1 (min (pm * 2) 100 * 0.25 + min roi 100 * 0.25 +
        (100 - rs) * 0.20 + ds * 0.20 + max 0 (100 - dl * 2) * 0.10) ≤
      pyRound1 100 := pyRound1_mono harg
    _ = 100 := by norm_num [pyRound1, roundHalfEven]

/-- C3 counterexample: for the matched row negProfitMatch, whose mean UK
price 100 and mean landed cost 10000 are both positive (non-degenerate), the
overall score is -4941.9, outside the claimed interval from 0 to 100. -/
theorem overall_score_negative_cx :
    (calculate_individual_profit 2024 negProfitMatch).map
        ProfitResult.overall_score = some (-49419/10) ∧
    (-49419/10 : ℚ) < 0 := by
  have hrisk : calculate_risk_score 2024 negProfitMatch = 25/2 := by
    norm_num [calculate_risk_score, negProfitMatch, pyRound1, roundHalfEven,
      Int.even_iff, min_def]
  have hfuel : lowerString "petrol" = "petrol" := by decide
  have hcond : ¬(("petrol" : String) = "hybrid" ∨ ("petrol" : String) = "electric") := by
    decide
  have hdemand : calculate_demand_score negProfitMatch = 567/10 := by
    simp only [calculate_demand_score, negProfitMatch, hfuel, if_neg hcond]
    norm_num [pyRound1, roundHalfEven, Int.even_iff, Int.fract]
  constructor
  · unfold calculate_individual_profit
    rw [if_neg (by norm_num [negProfitMatch])]
    dsimp only []
    rw [hrisk, hdemand]
    norm_num [negProfitMatch, calculate_overall_score, pyRound1, roundHalfEven,
      Int.even_iff, min_def, max_def]
  · norm_num

/-- C3 amended: for non-degenerate matched rows (and well-formed aggregates:
price range ordered, non-negative days on market) the risk and demand scores
lie in the interval from 0 to 100 and the final recommendation score is
clamped into that interval; the overall score is at most 100 but has no
lower clamp and can be negative (see the counterexample), and the ml score
recorded by the scoring engine always equals the overall score (default 50),
so it inherits the same violation. -/
theorem score_ranges_amended (y : ℤ) (m : MatchData)
    (hp : 0 < m.avg_uk_price) (hc : 0 < m.avg_landed_cost)
    (hr : m.min_uk_price ≤ m.max_uk_price) (hd : 0 ≤ m.avg_days_listed) :
    (∀ pr, calculate_individual_profit y m = some pr →
      (0 ≤ pr.risk_score ∧ pr.risk_score ≤ 100) ∧
      (0 ≤ pr.demand_score ∧ pr.demand_score ≤ 100) ∧
      pr.overall_score ≤ 100) ∧
    (∀ s : EnhancedResult,
      0 ≤ calculate_final_score s ∧ calculate_final_score s ≤ 100) ∧
    (∀ (log1p : ℚ → ℚ) (s : EnhancedResult),
      calculate_ml_score_for_result log1p y s = s.overall_score.getD 50) := by
  obtain ⟨hr1, hr2⟩ := calculate_risk_score_bounds y m hr
  obtain ⟨hd1, hd2⟩ := calculate_demand_score_bounds m
  refine ⟨?_, ?_, ?_⟩
  · intro pr hpr
    unfold calculate_individual_profit at hpr
    rw [if_neg (by push_neg; exact ⟨by linarith, by linarith⟩)] at hpr
    injection hpr with hpr
    subst hpr
    refine ⟨⟨by linarith, by linarith⟩, ⟨by linarith, by linarith⟩, ?_⟩
    exact calculate_overall_score_le_100 _ _ _ _ _ (by linarith) (by linarith) hd
  · intro s
    constructor
    · exact le_max_left _ _
    · simp only [calculate_final_score]
      exact max_le (by norm_num) (min_le_left _ _)
  · intro log1p s
    unfold calculate_ml_score_for_result
    simp [ml_model_initialized, extract_features_for_ml, rf_predict_unfitted]

/-- C3 amended witness: the theorem applied to the concrete non-degenerate
row okMatch. -/
theorem score_ranges_amended_witness :
    (∀ pr, calculate_individual_profit 2024 okMatch = some pr →
      (0 ≤ pr.risk_score ∧ pr.risk_score ≤ 100) ∧
      (0 ≤ pr.demand_score ∧ pr.demand_score ≤ 100) ∧
      pr.overall_score ≤ 100) ∧
    (∀ s : EnhancedResult,
      0 ≤ calculate_final_score s ∧ calculate_final_score s ≤ 100) ∧
    (∀ (log1p : ℚ → ℚ) (s : EnhancedResult),
      calculate_ml_score_for_result log1p 2024 s = s.overall_score.getD 50) :=
  score_ranges_amended 2024 okMatch (by norm_num [okMatch])
    (by norm_num [okMatch]) (by norm_num [okMatch]) (by norm_num [okMatch])

/-- C7: a matched row with a degenerate aggregate (non-positive mean price
or mean landed cost) yields no individual profit result, and it is omitted
from the profitability matrix without disturbing the scoring of the other
rows of the batch. -/
theorem degenerate_match_excluded (y : ℤ) (pre post : List MatchData)
    (m : MatchData) (h : m.avg_uk_price ≤ 0 ∨ m.avg_landed_cost ≤ 0) :
    calculate_individual_profit y m = none ∧
    calculate_profitability_matrix y (pre ++ m :: post) =
      calculate_profitability_matrix y (pre ++ post) := by
  have hnone : calculate_individual_profit y m = none := by
    unfold calculate_individual_profit
    rw [if_pos h]
  refine ⟨hnone, ?_⟩
  unfold calculate_profitability_matrix
  simp [List.filterMap_append, List.filterMap_cons, hnone]

/-- C7 witness: the theorem applied to the concrete batch consisting of the
healthy row okMatch followed by the degenerate row degMatch. -/
theorem degenerate_match_excluded_witness :
    calculate_individual_profit 2024 degMatch = none ∧
    calculate_profitability_matrix 2024 [okMatch, degMatch] =
      calculate_profitability_matrix 2024 [okMatch] :=
  degenerate_match_excluded 2024 [okMatch] [] degMatch
    (Or.inl (by norm_num [degMatch]))

/-- C10: for well-formed aggregates the risk score lies in the interval from
3.7 to 36.3 and the demand score in the interval from 40 to 88.4; since the
risk score therefore never exceeds 70, the high-overall-risk warning branch
of the risk-warning generator cannot fire on a result carrying such a risk
score. -/
theorem risk_demand_bounds_no_high_risk_warning (y : ℤ) (m : MatchData)
    (r : EnhancedResult) (h : m.min_uk_price ≤ m.max_uk_price)
    (hrs : r.risk_score = some (calculate_risk_score y m)) :
    (37/10 ≤ calculate_risk_score y m ∧ calculate_risk_score y m ≤ 363/10) ∧
    (40 ≤ calculate_demand_score m ∧ calculate_demand_score m ≤ 884/10) ∧
    "High overall risk score - consider additional due diligence" ∉
      generate_risk_warnings r := by
  obtain ⟨hrl, hru⟩ := calculate_risk_score_bounds y m h
  obtain ⟨hdl, hdu⟩ := calculate_demand_score_bounds m
  refine ⟨⟨by linarith, by linarith⟩, ⟨hdl, by linarith⟩, ?_⟩
  intro hmem
  simp only [generate_risk_warnings, hrs, Option.getD_some, List.mem_append,
    mem_ite_singleton] at hmem
  rcases hmem with ((((⟨_, h1⟩ | ⟨_, h2⟩) | ⟨_, h3⟩) | ⟨_, h4⟩) | ⟨h5, _⟩) | ⟨_, h6⟩
  · exact absurd h1 (by decide)
  · exact absurd h2 (by decide)
  · exact absurd h3 (by decide)
  · exact absurd h4 (by decide)
  · linarith
  · exact absurd h6 (by decide)

/-- C10 witness: the theorem applied to the concrete row okMatch and an
enhanced result carrying its computed risk score. -/
theorem risk_demand_bounds_no_high_risk_warning_witness :
    (37/10 ≤ calculate_risk_score 2024 okMatch ∧
      calculate_risk_score 2024 okMatch ≤ 363/10) ∧
    (40 ≤ calculate_demand_score okMatch ∧
      calculate_demand_score okMatch ≤ 884/10) ∧
    "High overall risk score - consider additional due diligence" ∉
      generate_risk_warnings warnFixture :=
  risk_demand_bounds_no_high_risk_warning 2024 okMatch warnFixture
    (by norm_num [okMatch]) rfl
